import Mathlib

/-!
Verification of the persona-switching chat pipeline (`backend.py`,
`database.py`) against its natural-language specification.

The Python source is shallowly embedded:
* the PostgreSQL tables of `database.py` become a record of lists
  (`DB`); rows are kept in insertion order, which is the `timestamp`
  order of the sequential pipeline;
* the two LLM oracles are parameters: the classifier surfaces either a
  raised exception, unparseable JSON, or a parsed payload
  (`ClassifierOut`), and the completion oracles surface either a raised
  exception or a content string (`LLMOut`);
* Python functions that may raise become `Except String`; exceptions
  that the Python code catches are handled exactly where the `try`
  blocks of the source sit.
-/

namespace PersonaAgent

/-- Python `str.strip()` over the whitespace characters recognised by
`Char.isWhitespace`; models the `.strip()` calls in `backend.py`. -/
def pyStrip (s : String) : String :=
  String.mk (((s.data.dropWhile Char.isWhitespace).reverse.dropWhile Char.isWhitespace).reverse)

/-- Python string truthiness fallback `a or b` (empty string is falsy),
used pervasively in `backend.py`. -/
def orStr (a b : String) : String := if a = "" then b else a

/-- Python `d.get(k) or b` where the key may be absent (`none`). -/
def orOptStr (a : Option String) (b : String) : String :=
  match a with
  | some s => orStr s b
  | none => b

/-- Python truthiness of an `Optional[str]`: `None` and the empty
string are falsy, any other string is truthy (the `if existing:` test
in backend.py). -/
def pyTruthy (a : Option String) : Bool :=
  match a with
  | some s => !(s == "")
  | none => false

/-- One row of the `conversations` table (`database.py`, CREATE TABLE
conversations): a turn of some persona thread. Row order in the list is
insertion order, i.e. `timestamp` order for the sequential pipeline. -/
structure ConvRow where
  user_id : String
  persona_name : String
  role : String
  message : String
deriving DecidableEq

/-- One row of the `professions` table (`database.py`): the instruction
prompt stored for a (user, profession) pair; the table is UNIQUE on
`(user_id, profession_name)`. -/
structure ProfRow where
  user_id : String
  profession_name : String
  prompt : String
deriving DecidableEq

/-- A turn as returned by history queries: `role` and `message`
(timestamps are represented by list order). -/
structure Turn where
  role : String
  message : String
deriving DecidableEq

/-- The persistent state managed by `database.py`: `users`,
`conversations` and `professions` tables. -/
structure DB where
  users : List String
  conversations : List ConvRow
  professions : List ProfRow
deriving DecidableEq

/-- `DatabaseManager.user_exists`: `SELECT 1 FROM users WHERE user_id = %s`. -/
def DB.user_exists (db : DB) (u : String) : Bool :=
  db.users.contains u

/-- `DatabaseManager.create_user`: `INSERT INTO users`; a duplicate key
raises `IntegrityError`, which the method catches and turns into
`False` without modifying the table. -/
def DB.create_user (db : DB) (u : String) : Bool × DB :=
  if db.users.contains u then (false, db)
  else (true, { db with users := db.users ++ [u] })

/-- `DatabaseManager.get_persona_history`: rows of `conversations` for
this user and persona, `ORDER BY timestamp ASC` (list order). -/
def DB.get_persona_history (db : DB) (u p : String) : List Turn :=
  (db.conversations.filter (fun r => r.user_id == u && r.persona_name == p)).map
    (fun r => { role := r.role, message := r.message })

/-- `DatabaseManager.get_profession_prompt`: `SELECT prompt FROM
professions WHERE user_id = %s AND profession_name = %s`. -/
def DB.get_profession_prompt (db : DB) (u p : String) : Option String :=
  (db.professions.find? (fun r => r.user_id == u && r.profession_name == p)).map
    (fun r => r.prompt)

/-- `DatabaseManager.save_profession_prompt`: `INSERT ... ON CONFLICT
(user_id, profession_name) DO UPDATE SET prompt = EXCLUDED.prompt` —
an upsert that replaces the stored prompt on conflict. -/
def DB.save_profession_prompt (db : DB) (u p prompt : String) : Bool × DB :=
  if db.professions.any (fun r => r.user_id == u && r.profession_name == p) then
    (true, { db with professions :=
      db.professions.map (fun r =>
        if r.user_id == u && r.profession_name == p then { r with prompt := prompt } else r) })
  else
    (true, { db with professions :=
      db.professions ++ [{ user_id := u, profession_name := p, prompt := prompt }] })

/-- `DatabaseManager.save_message`: `INSERT INTO conversations (user_id,
persona_name, role, message)`; the timestamp defaults to now, i.e. the
row goes to the end of the list. -/
def DB.save_message (db : DB) (u p role message : String) : Bool × DB :=
  (true, { db with conversations :=
    db.conversations ++ [{ user_id := u, persona_name := p, role := role, message := message }] })

/-- `DatabaseManager.persona_exists_for_user`: `SELECT 1 FROM
conversations WHERE user_id = %s AND persona_name = %s LIMIT 1`. -/
def DB.persona_exists_for_user (db : DB) (u p : String) : Bool :=
  db.conversations.any (fun r => r.user_id == u && r.persona_name == p)

/-- `DatabaseManager.get_user_personas`: `SELECT DISTINCT persona_name
FROM conversations WHERE user_id = %s` (the SQL also sorts
alphabetically; no claim depends on that order). -/
def DB.get_user_personas (db : DB) (u : String) : List String :=
  ((db.conversations.filter (fun r => r.user_id == u)).map
    (fun r => r.persona_name)).eraseDups

/-- `DatabaseManager.get_all_chat_history`: all rows for the user
grouped by persona, each group in timestamp order. -/
def DB.get_all_chat_history (db : DB) (u : String) : List (String × List Turn) :=
  (DB.get_user_personas db u).map (fun p => (p, DB.get_persona_history db u p))

/-- `DatabaseManager.delete_user_data`: `DELETE FROM users WHERE
user_id = %s`; the foreign keys are `ON DELETE CASCADE`, so matching
`conversations` and `professions` rows go too. There is no existence
check: deleting an unknown user matches zero rows and returns `True`. -/
def DB.delete_user_data (db : DB) (u : String) : Bool × DB :=
  (true,
    { users := db.users.filter (fun x => x != u),
      conversations := db.conversations.filter (fun r => r.user_id != u),
      professions := db.professions.filter (fun r => r.user_id != u) })

/-- Outcome of one `llm.invoke` call of the classification oracle in
`detect_profession_from_message`, as seen by the caller after
`json.loads`: the call raised (`exn`), the content did not parse
(`malformed`), or it parsed to a JSON object whose two relevant fields
are `should_switch` (missing defaults to false via
`bool(data.get("should_switch", False))`) and `profession_name`
(possibly missing). -/
inductive ClassifierOut where
  | exn (e : String)
  | malformed
  | parsed (should_switch : Bool) (profession_name : Option String)
deriving DecidableEq

/-- Outcome of one `llm.invoke` call of a completion oracle: the call
raised, or returned a content string. -/
inductive LLMOut where
  | exn (e : String)
  | ok (content : String)
deriving DecidableEq

/-- A LangChain message as built in `execute_chat`:
`SystemMessage`, `HumanMessage` or `AIMessage`. -/
inductive LMsg where
  | system (content : String)
  | human (content : String)
  | ai (content : String)
deriving DecidableEq

/-- `detect_profession_from_message` (backend.py). `llm.invoke` sits
OUTSIDE the `try`, so a raised oracle exception propagates
(`Except.error`); only the `json.loads` failure is caught and turned
into the `(False, current_profession)` fallback. On a parsed payload
the candidate is `(data.get("profession_name") or "").strip()`, with
an empty result replaced by `current_profession`. -/
def detect_profession_from_message (oracle : ClassifierOut) (current_profession : String) :
    Except String (Bool × String) :=
  match oracle with
  | ClassifierOut.exn e => Except.error e
  | ClassifierOut.malformed => Except.ok (false, current_profession)
  | ClassifierOut.parsed should_switch pn =>
      let profession_name := pyStrip (orOptStr pn "")
      let profession_name := orStr profession_name current_profession
      Except.ok (should_switch, profession_name)

/-- The LangGraph working state (`ChatState` TypedDict in backend.py).
The two fields that the `/chat` endpoint does not put into the initial
state dict are `Option`s. -/
structure ChatState where
  user_id : String
  message : String
  current_persona : String
  conversation_history : List Turn
  response : String
  user_exists : Bool
  persona_detected : String
  action : String
  profession_name : Option String
  profession_prompt : Option String
deriving DecidableEq

/-- Node 1 of the graph (chat setup in backend.py): default the persona
to "general_expert" when unset or empty, then hand off to user
validation. -/
def init_chat (state : ChatState) : ChatState :=
  let state :=
    if state.current_persona = "" then { state with current_persona := "general_expert" }
    else state
  { state with action := "validate_user" }

/-- Node 2, `validate_user` (backend.py): check existence; create the
user when absent (also resetting the history placeholder). -/
def validate_user (state : ChatState) (db : DB) : ChatState × DB :=
  let ue := DB.user_exists db state.user_id
  let state := { state with user_exists := ue }
  if ue then ({ state with action := "handle_persona" }, db)
  else
    let db := (DB.create_user db state.user_id).2
    ({ state with conversation_history := [], action := "handle_persona" }, db)

/-- Node 3, `handle_persona` (backend.py): run the classifier, adopt
`detection["profession_name"] or current_profession` as the resolved
profession, store it in `persona_detected`, `current_persona` and
`profession_name`, and load that profession thread history (empty
when the thread does not exist yet). -/
def handle_persona (classify : String → String → ClassifierOut)
    (state : ChatState) (db : DB) : Except String ChatState :=
  let user_id := state.user_id
  let message := state.message
  let current_profession := orStr state.current_persona "general_expert"
  match detect_profession_from_message (classify message current_profession) current_profession with
  | Except.error e => Except.error e
  | Except.ok detection =>
      let profession_name := orStr detection.2 current_profession
      let state := { state with
        persona_detected := profession_name,
        current_persona := profession_name,
        profession_name := some profession_name }
      let history :=
        if DB.persona_exists_for_user db user_id profession_name then
          DB.get_persona_history db user_id profession_name
        else []
      Except.ok { state with conversation_history := history, action := "execute_chat" }

/-- The deterministic fallback template of
`generate_profession_prompt_with_llm` for empty oracle output. -/
def fallback_prompt (profession_name : String) : String :=
  "You are an AI assistant acting as a professional " ++ profession_name ++ ". " ++
  "Answer as a knowledgeable, helpful " ++ profession_name ++ ", using the tone, priorities, " ++
  "and expertise that such a professional would use."

/-- `generate_profession_prompt_with_llm` (backend.py): `llm.invoke` is
not wrapped in any `try`, so a raised exception propagates; otherwise
the stripped content is returned, with the fallback template
substituted when it is empty. -/
def generate_profession_prompt_with_llm (synth : String → LLMOut) (profession_name : String) :
    Except String String :=
  match synth profession_name with
  | LLMOut.exn e => Except.error e
  | LLMOut.ok raw =>
      let prompt := pyStrip raw
      let prompt := if prompt = "" then fallback_prompt profession_name else prompt
      Except.ok prompt

/-- `get_or_create_profession_prompt` (backend.py): the guard
`if existing:` is a Python truthiness test, so a missing row AND an
empty stored prompt both fall through to synthesis followed by an
overwriting save; only a non-empty stored prompt is returned as is. -/
def get_or_create_profession_prompt (synth : String → LLMOut) (db : DB)
    (user_id profession_name : String) : Except String (String × DB) :=
  let existing := DB.get_profession_prompt db user_id profession_name
  if pyTruthy existing then Except.ok (existing.getD "", db)
  else
    match generate_profession_prompt_with_llm synth profession_name with
    | Except.error e => Except.error e
    | Except.ok prompt =>
        Except.ok (prompt, (DB.save_profession_prompt db user_id profession_name prompt).2)

/-- Python slice `conversation_history[-10:]`: the last `n` elements. -/
def lastN (n : Nat) (l : List α) : List α := l.drop (l.length - n)

/-- The role dispatch of the history loop in `execute_chat`: a "user"
turn becomes a `HumanMessage`, an "assistant" turn an `AIMessage`, any
other role is skipped. -/
def roleToMsg (t : Turn) : Option LMsg :=
  if t.role = "user" then some (LMsg.human t.message)
  else if t.role = "assistant" then some (LMsg.ai t.message)
  else none

/-- The message list assembled in `execute_chat`: the profession prompt
as leading `SystemMessage`, then the last 10 history turns, then the
new message as trailing `HumanMessage`. -/
def build_context (profession_prompt : String) (conversation_history : List Turn)
    (message : String) : List LMsg :=
  (LMsg.system profession_prompt :: (lastN 10 conversation_history).filterMap roleToMsg)
    ++ [LMsg.human message]

/-- Node 4, `execute_chat` (backend.py). Prompt resolution happens
before the `try`, so a synthesis-oracle exception propagates. Inside
the `try`: generation first, then the two `save_message` calls — on a
generation exception neither message is saved and the response becomes
the apologetic error string. -/
def execute_chat (synth : String → LLMOut) (gen : List LMsg → LLMOut)
    (state : ChatState) (db : DB) : Except String (ChatState × DB) :=
  let user_id := state.user_id
  let message := state.message
  let profession_name := orOptStr state.profession_name (orStr state.current_persona "general_expert")
  let conversation_history := state.conversation_history
  let prompt_result :=
    match state.profession_prompt with
    | some pp =>
        if pp = "" then get_or_create_profession_prompt synth db user_id profession_name
        else Except.ok (pp, db)
    | none => get_or_create_profession_prompt synth db user_id profession_name
  match prompt_result with
  | Except.error e => Except.error e
  | Except.ok (profession_prompt, db) =>
      let state := { state with profession_prompt := some profession_prompt }
      let messages := build_context profession_prompt conversation_history message
      match gen messages with
      | LLMOut.ok assistant_message =>
          let db := (DB.save_message db user_id profession_name "user" message).2
          let db := (DB.save_message db user_id profession_name "assistant" assistant_message).2
          Except.ok ({ state with response := assistant_message, action := "complete" }, db)
      | LLMOut.exn e =>
          Except.ok ({ state with
            response := "I apologize, but I encountered an error: " ++ e,
            action := "complete" }, db)

/-- The `/chat` request body (`ChatRequest` pydantic model). -/
structure ChatRequest where
  user_id : String
  message : String
  persona_name : String
deriving DecidableEq

/-- The `/chat` response body (`ChatResponse` pydantic model). -/
structure ChatResponse where
  response : String
  persona_name : String
  user_id : String
deriving DecidableEq

/-- An HTTP error surfaced by an endpoint (`HTTPException`). -/
inductive ApiError where
  | http (status : Nat) (detail : String)
deriving DecidableEq

/-- The initial `ChatState` dict built by the `/chat` endpoint. -/
def initial_state (request : ChatRequest) : ChatState :=
  { user_id := request.user_id,
    message := request.message,
    current_persona := request.persona_name,
    conversation_history := [],
    response := "",
    user_exists := false,
    persona_detected := "",
    action := "initialize",
    profession_name := none,
    profession_prompt := none }

/-- `graph.invoke`: the compiled LangGraph runs the four nodes in the
fixed order setup → validate_user → handle_persona → execute_chat (the
`route_next` chaining of `action` values), then ends. -/
def run_graph (classify : String → String → ClassifierOut) (synth : String → LLMOut)
    (gen : List LMsg → LLMOut) (state : ChatState) (db : DB) :
    Except String (ChatState × DB) :=
  let state := init_chat state
  let sd := validate_user state db
  match handle_persona classify sd.1 sd.2 with
  | Except.error e => Except.error e
  | Except.ok state => execute_chat synth gen state sd.2

/-- The `/chat` endpoint: run the graph on the initial state; any
exception escaping the graph becomes `HTTPException(500, str(e))`. -/
def chat (classify : String → String → ClassifierOut) (synth : String → LLMOut)
    (gen : List LMsg → LLMOut) (request : ChatRequest) (db : DB) :
    Except ApiError (ChatResponse × DB) :=
  match run_graph classify synth gen (initial_state request) db with
  | Except.ok (final, db) =>
      Except.ok
        ({ response := final.response,
           persona_name := final.current_persona,
           user_id := final.user_id }, db)
  | Except.error e => Except.error (ApiError.http 500 e)

/-- The `/chat_history/{user_id}` endpoint: 404 when the user is
unknown, otherwise the persona list and the grouped history. -/
def get_chat_history (db : DB) (user_id : String) :
    Except ApiError (List String × List (String × List Turn)) :=
  if DB.user_exists db user_id then
    Except.ok (DB.get_user_personas db user_id, DB.get_all_chat_history db user_id)
  else Except.error (ApiError.http 404 "User not found")

/-- The `/personas/{user_id}` endpoint: 404 when the user is unknown,
otherwise the persona list. -/
def get_user_personas_route (db : DB) (user_id : String) :
    Except ApiError (List String) :=
  if DB.user_exists db user_id then Except.ok (DB.get_user_personas db user_id)
  else Except.error (ApiError.http 404 "User not found")

/-- The `DELETE /user/{user_id}` endpoint: report success whenever
`delete_user_data` returns `True` (which it always does on a reachable
database), with no existence check. -/
def delete_user (db : DB) (user_id : String) : Except ApiError (String × DB) :=
  let r := DB.delete_user_data db user_id
  if r.1 then Except.ok ("User " ++ user_id ++ " deleted successfully", r.2)
  else Except.error (ApiError.http 500 "Failed to delete user")

/-! ### Helper lemmas -/

theorem pyStrip_empty : pyStrip "" = "" := rfl

theorem orStr_self (a : String) : orStr a a = a := by
  unfold orStr; split <;> rfl

theorem orStr_ne_of_ne (a b : String) (hb : b ≠ "") : orStr a b ≠ "" := by
  unfold orStr; split
  · exact hb
  · assumption

theorem general_expert_ne_empty : ("general_expert" : String) ≠ "" := by decide

/-- How `handle_persona` turns a parsed classifier payload into the
resolved label: the stripped candidate when that is non-empty, the
current label otherwise. -/
theorem resolve_label_eq (c cur : String) (hcur : cur ≠ "") :
    orStr (orStr (pyStrip (orOptStr (some c) "")) cur) cur
      = if pyStrip c = "" then cur else pyStrip c := by
  by_cases hc : c = ""
  · subst hc
    simp [orOptStr, orStr, pyStrip_empty, hcur]
  · by_cases hpc : pyStrip c = ""
    · simp [orOptStr, orStr, hc, hpc, hcur]
    · simp [orOptStr, orStr, hc, hpc]

/-! ### C1 — label normalization -/

/-- C1 counterexample: the code never case-folds. The classifier
candidates "INVESTOR" and "investor" (same current label, differing
only in letter case) resolve to the distinct thread keys "INVESTOR"
and "investor", so they do not reach the same persona thread. -/
theorem C1_counterexample :
    detect_profession_from_message (ClassifierOut.parsed true (some "INVESTOR")) "general_expert"
        = Except.ok (true, "INVESTOR")
      ∧ detect_profession_from_message (ClassifierOut.parsed true (some "investor")) "general_expert"
        = Except.ok (true, "investor")
      ∧ ("INVESTOR" : String) ≠ "investor" :=
  ⟨rfl, rfl, by decide⟩

/-- C1 (amended): the resolved label is normalized only by trimming
surrounding whitespace (Python `strip()`), not by case-folding: a
non-whitespace classifier candidate is adopted exactly as its stripped
form, so "investor" and "investor " resolve to the same thread while
"Investor" and "INVESTOR" resolve to different ones. -/
theorem C1_trim_no_casefold (b : Bool) (c cur : String) (h : pyStrip c ≠ "") :
    detect_profession_from_message (ClassifierOut.parsed b (some c)) cur
      = Except.ok (b, pyStrip c) := by
  have hc : c ≠ "" := by
    intro hc; rw [hc] at h; exact h rfl
  unfold detect_profession_from_message
  simp only [orOptStr, orStr, if_neg hc]
  split
  · simp_all
  · rfl

/-- C1 witness: at the concrete candidate " investor " the amended
theorem applies and yields the trimmed label "investor". -/
theorem C1_trim_no_casefold_witness :
    detect_profession_from_message (ClassifierOut.parsed true (some " investor ")) "general_expert"
      = Except.ok (true, "investor") :=
  (C1_trim_no_casefold true " investor " "general_expert" (by decide)).trans
    (by rw [show pyStrip " investor " = "investor" from by decide])

/-! ### C4 — profile persistence semantics -/

/-- C4 counterexample: persisting a prompt for a pair that already has
one REPLACES the stored text (the SQL is ON CONFLICT DO UPDATE): with
"old" stored for (u1, investor), saving "new" leaves "new" in the
table, not "old". -/
theorem C4_counterexample :
    (DB.save_profession_prompt
        { users := ["u1"], conversations := [],
          professions := [{ user_id := "u1", profession_name := "investor", prompt := "old" }] }
        "u1" "investor" "new").2.professions
      = [{ user_id := "u1", profession_name := "investor", prompt := "new" }]
      ∧ ("old" : String) ≠ "new" :=
  ⟨rfl, by decide⟩

/-- In the conflict branch of the upsert: mapping an update `f` over a
list and then looking up by a predicate `q` that `f` preserves finds an
updated element, provided some element matched; projecting with `g`
yields the common value `v` that `f` writes into every match. -/
theorem find_map_upsert_gen {α β : Type} (q : α → Bool) (f : α → α) (g : α → β) (v : β)
    (hq : ∀ r, q (f r) = q r) (hg : ∀ r, q r = true → g (f r) = v)
    (l : List α) (h : l.any q = true) :
    ((l.map f).find? q).map g = some v := by
  induction l with
  | nil => simp at h
  | cons a t ih =>
    rw [List.map_cons, List.find?_cons]
    cases hqa : q a with
    | true =>
      rw [hq a, hqa]
      simp [hg a hqa]
    | false =>
      rw [hq a, hqa]
      exact ih (by rw [List.any_cons, hqa, Bool.false_or] at h; exact h)

/-- In the no-conflict branch of the upsert, looking the pair up after
the append yields the freshly written prompt. -/
theorem find_append_new (u p prompt : String) (l : List ProfRow)
    (h : l.any (fun r => r.user_id == u && r.profession_name == p) = false) :
    ((l ++ [({ user_id := u, profession_name := p, prompt := prompt } : ProfRow)]).find?
      (fun r => r.user_id == u && r.profession_name == p)).map (fun r => r.prompt)
    = some prompt := by
  have hnone : l.find? (fun r => r.user_id == u && r.profession_name == p) = none := by
    rw [List.find?_eq_none]
    intro x hx hpx
    have : l.any (fun r => r.user_id == u && r.profession_name == p) = true :=
      List.any_eq_true.mpr ⟨x, hx, hpx⟩
    rw [h] at this
    exact Bool.false_ne_true this
  rw [List.find?_append, hnone]
  simp

/-- After any `save_profession_prompt`, looking the pair up yields the
prompt just written (both upsert branches). -/
theorem save_then_get (db : DB) (u p prompt : String) :
    DB.get_profession_prompt (DB.save_profession_prompt db u p prompt).2 u p = some prompt := by
  unfold DB.save_profession_prompt DB.get_profession_prompt
  by_cases hany : db.professions.any
      (fun r => r.user_id == u && r.profession_name == p) = true
  · rw [if_pos hany]
    refine find_map_upsert_gen
      (fun r => r.user_id == u && r.profession_name == p)
      (fun r => if r.user_id == u && r.profession_name == p
                then { r with prompt := prompt } else r)
      (fun r => r.prompt) prompt ?_ ?_ db.professions hany
    · intro r
      by_cases hr : (r.user_id == u && r.profession_name == p) = true
      · simp [hr]
      · simp [hr]
    · intro r hr
      simp only at hr
      simp [hr]
  · rw [if_neg hany]
    exact find_append_new u p prompt db.professions (by rwa [Bool.not_eq_true] at hany)

/-- C4 (amended): the storage operation has insert-or-UPDATE
(last-writer-wins) semantics: after any `save_profession_prompt` the
stored text for the pair is the prompt just written, whether or not a
profile existed before. (The pipeline itself only writes when the
truthiness check on the stored prompt fails, so sequential runs still
never regenerate an existing non-empty profile.) -/
theorem C4_upsert_last_writer_wins (db : DB) (u p prompt : String) :
    DB.get_profession_prompt (DB.save_profession_prompt db u p prompt).2 u p = some prompt :=
  save_then_get db u p prompt

/-! ### C5 — candidate adoption policy -/

/-- C5: for a parsed classifier payload the resolved thread label does
not depend on `should_switch` at all: a candidate that is non-empty
after stripping is adopted (as its stripped form), and an empty
candidate retains the current label (after the "general_expert"
defaulting of an empty current label). -/
theorem C5_adopt_candidate (b : Bool) (c : String) (state : ChatState) (db : DB) :
    ∃ state', handle_persona (fun _ _ => ClassifierOut.parsed b (some c)) state db
        = Except.ok state'
      ∧ state'.current_persona
          = (if pyStrip c = "" then orStr state.current_persona "general_expert" else pyStrip c) := by
  refine ⟨_, rfl, ?_⟩
  show orStr (orStr (pyStrip (orOptStr (some c) ""))
      (orStr state.current_persona "general_expert")) (orStr state.current_persona "general_expert")
    = _
  exact resolve_label_eq c _ (orStr_ne_of_ne _ _ general_expert_ne_empty)

/-! ### C7 — instruction profile generated at most once -/

theorem append_ne_empty_left (a b : String) (ha : a ≠ "") : (a ++ b) ≠ "" := by
  intro h
  apply ha
  have h2 : a.data ++ b.data = [] := congrArg String.data h
  have h3 := (List.append_eq_nil.mp h2).1
  cases a with
  | mk data =>
      cases data with
      | nil => rfl
      | cons c cs => simp at h3

/-- The deterministic fallback template is never the empty string. -/
theorem fallback_prompt_ne_empty (p : String) : fallback_prompt p ≠ "" := by
  unfold fallback_prompt
  apply append_ne_empty_left
  apply append_ne_empty_left
  apply append_ne_empty_left
  apply append_ne_empty_left
  apply append_ne_empty_left
  apply append_ne_empty_left
  decide

/-- Whatever the synthesis oracle returns, the prompt produced by
`generate_profession_prompt_with_llm` is non-empty: a blank completion
is replaced by the fallback template. Hence the pipeline never stores
an empty profile, and the truthiness check always accepts a profile the
pipeline wrote. -/
theorem generate_ok_ne_empty (synth : String → LLMOut) (p q : String)
    (h : generate_profession_prompt_with_llm synth p = Except.ok q) : q ≠ "" := by
  simp only [generate_profession_prompt_with_llm] at h
  cases hs : synth p with
  | exn e => simp only [hs] at h; simp at h
  | ok raw =>
      simp only [hs] at h
      by_cases hr : pyStrip raw = ""
      · rw [if_pos hr] at h
        simp only [Except.ok.injEq] at h
        subst h
        exact fallback_prompt_ne_empty p
      · rw [if_neg hr] at h
        simp only [Except.ok.injEq] at h
        subst h
        exact hr

/-- C7: the instruction profile for a pair is generated at most once.
Whatever a first successful resolution produced — a stored profile read
back, or a freshly synthesised one that was saved — every later
resolution for the same pair returns exactly that stored text, leaves
the database unchanged, and does not depend on the synthesis oracle at
all (so the oracle is never invoked again: the result is the same even
for an oracle that would raise). -/
theorem C7_profile_cached (synth synth₂ : String → LLMOut) (db db₁ : DB)
    (u p q : String)
    (h : get_or_create_profession_prompt synth db u p = Except.ok (q, db₁)) :
    get_or_create_profession_prompt synth₂ db₁ u p = Except.ok (q, db₁) := by
  simp only [get_or_create_profession_prompt] at h ⊢
  by_cases htr : pyTruthy (DB.get_profession_prompt db u p) = true
  · rw [if_pos htr] at h
    simp only [Except.ok.injEq, Prod.mk.injEq] at h
    obtain ⟨hq, hdb⟩ := h
    subst hdb
    subst hq
    rw [if_pos htr]
  · rw [if_neg htr] at h
    cases hg : generate_profession_prompt_with_llm synth p with
    | error e => simp only [hg] at h; simp at h
    | ok prompt =>
        simp only [hg] at h
        simp only [Except.ok.injEq, Prod.mk.injEq] at h
        obtain ⟨hq, hdb⟩ := h
        subst hq
        subst hdb
        have hne := generate_ok_ne_empty synth p prompt hg
        have hl2 := save_then_get db u p prompt
        rw [hl2]
        have htr2 : pyTruthy (some prompt) = true := by
          simp [pyTruthy, hne]
        rw [if_pos htr2]
        rfl

/-- C7 witness: a first resolution against an empty store generates and
saves "P"; a second resolution for the same pair returns "P" and the
unchanged store even under a synthesis oracle that would raise if it
were ever invoked. -/
theorem C7_profile_cached_witness :
    get_or_create_profession_prompt (fun _ => LLMOut.exn "oracle down")
        { users := ["u1"], conversations := [],
          professions := [{ user_id := "u1", profession_name := "investor", prompt := "P" }] }
        "u1" "investor"
      = Except.ok ("P",
          { users := ["u1"], conversations := [],
            professions := [{ user_id := "u1", profession_name := "investor", prompt := "P" }] }) :=
  C7_profile_cached (fun _ => LLMOut.ok "P") (fun _ => LLMOut.exn "oracle down")
    { users := ["u1"], conversations := [], professions := [] }
    { users := ["u1"], conversations := [],
      professions := [{ user_id := "u1", profession_name := "investor", prompt := "P" }] }
    "u1" "investor" "P" rfl

/-! ### What the prompt-resolution step may write -/

theorem save_profession_prompt_users (db : DB) (u p pr : String) :
    (DB.save_profession_prompt db u p pr).2.users = db.users := by
  unfold DB.save_profession_prompt
  split <;> rfl

theorem save_profession_prompt_conversations (db : DB) (u p pr : String) :
    (DB.save_profession_prompt db u p pr).2.conversations = db.conversations := by
  unfold DB.save_profession_prompt
  split <;> rfl

theorem save_profession_prompt_mem (db : DB) (u p pr : String) :
    ∀ r ∈ (DB.save_profession_prompt db u p pr).2.professions,
      r ∈ db.professions ∨ (r.user_id = u ∧ r.profession_name = p) := by
  unfold DB.save_profession_prompt
  split
  · intro r hr
    obtain ⟨r₀, hr₀, hfr⟩ := List.mem_map.mp hr
    by_cases h0 : (r₀.user_id == u && r₀.profession_name == p) = true
    · rw [if_pos h0] at hfr
      subst hfr
      simp only [Bool.and_eq_true, beq_iff_eq] at h0
      exact Or.inr ⟨h0.1, h0.2⟩
    · rw [if_neg h0] at hfr
      exact Or.inl (hfr ▸ hr₀)
  · intro r hr
    rcases List.mem_append.mp hr with h1 | h1
    · exact Or.inl h1
    · have h2 := List.mem_singleton.mp h1
      subst h2
      exact Or.inr ⟨rfl, rfl⟩

/-- `get_or_create_profession_prompt` never touches users or
conversations, and any profession row it adds or rewrites is keyed by
exactly the pair it was called with. -/
theorem get_or_create_db_spec (synth : String → LLMOut) (db : DB) (u p q : String)
    (db' : DB)
    (h : get_or_create_profession_prompt synth db u p = Except.ok (q, db')) :
    db'.users = db.users
    ∧ db'.conversations = db.conversations
    ∧ (∀ r ∈ db'.professions, r ∈ db.professions
        ∨ (r.user_id = u ∧ r.profession_name = p)) := by
  simp only [get_or_create_profession_prompt] at h
  by_cases htr : pyTruthy (DB.get_profession_prompt db u p) = true
  · rw [if_pos htr] at h
    simp only [Except.ok.injEq, Prod.mk.injEq] at h
    obtain ⟨-, hdb⟩ := h
    subst hdb
    exact ⟨rfl, rfl, fun r hr => Or.inl hr⟩
  · rw [if_neg htr] at h
    cases hsy : generate_profession_prompt_with_llm synth p with
    | error e => simp only [hsy] at h; simp at h
    | ok pr =>
        simp only [hsy] at h
        simp only [Except.ok.injEq, Prod.mk.injEq] at h
        obtain ⟨-, hdb⟩ := h
        subst hdb
        exact ⟨save_profession_prompt_users db u p pr,
          save_profession_prompt_conversations db u p pr,
          save_profession_prompt_mem db u p pr⟩

/-! ### C2 — classifier failure handling -/

/-- C2 counterexample: an exception raised by the classifier invocation
IS propagated upward. With a classifier oracle that raises "boom", the
whole `/chat` request fails with a generic HTTP 500 carrying the
oracle error text — not with the `should_switch = false` fallback, and not
with a storage error. -/
theorem C2_counterexample :
    chat (fun _ _ => ClassifierOut.exn "boom") (fun _ => LLMOut.ok "p") (fun _ => LLMOut.ok "r")
        { user_id := "u1", message := "hi", persona_name := "general_expert" }
        { users := [], conversations := [], professions := [] }
      = Except.error (ApiError.http 500 "boom") := rfl

/-- C2 (amended): only MALFORMED classifier output is absorbed: the
Router then keeps the current (defaulted) label, succeeds, and the
resolved label is never empty; an exception raised by the classifier
call itself escapes the Router (see the counterexample) and surfaces as
a generic internal error rather than `StorageUnavailable`. -/
theorem C2_malformed_not_propagated (classify : String → String → ClassifierOut)
    (state : ChatState) (db : DB)
    (h : classify state.message (orStr state.current_persona "general_expert")
          = ClassifierOut.malformed) :
    ∃ state', handle_persona classify state db = Except.ok state'
      ∧ state'.current_persona = orStr state.current_persona "general_expert"
      ∧ state'.current_persona ≠ "" := by
  simp only [handle_persona, h]
  refine ⟨_, rfl, ?_, ?_⟩
  · exact orStr_self _
  · show orStr (orStr state.current_persona "general_expert")
        (orStr state.current_persona "general_expert") ≠ ""
    rw [orStr_self]
    exact orStr_ne_of_ne _ _ general_expert_ne_empty

/-- C2 witness: a concrete malformed classifier response on a concrete
state is absorbed and keeps the current label "investor". -/
theorem C2_malformed_not_propagated_witness :
    ∃ state', handle_persona (fun _ _ => ClassifierOut.malformed)
        { user_id := "u1", message := "hi", current_persona := "investor",
          conversation_history := [], response := "", user_exists := true,
          persona_detected := "", action := "handle_persona",
          profession_name := none, profession_prompt := none }
        { users := ["u1"], conversations := [], professions := [] }
      = Except.ok state'
      ∧ state'.current_persona = orStr "investor" "general_expert"
      ∧ state'.current_persona ≠ "" :=
  C2_malformed_not_propagated _ _ _ rfl

/-! ### C3 — generation failure and turn durability -/

theorem apology_ne_empty (e : String) :
    ("I apologize, but I encountered an error: " ++ e) ≠ "" := by
  intro h
  have h2 := congrArg String.length h
  simp [String.length_append] at h2
  have hlen : ("I apologize, but I encountered an error: ").length = 41 := by decide
  omega

/-- C3 counterexample: when the generation oracle raises, the inbound
user turn is NOT appended: the two `save_message` calls sit inside the
`try` after `llm.invoke`, so on a generation exception the conversation
table stays empty while the apologetic response is still produced. -/
theorem C3_counterexample :
    execute_chat (fun _ => LLMOut.ok "unused") (fun _ => LLMOut.exn "boom")
        { user_id := "u1", message := "hi", current_persona := "investor",
          conversation_history := [], response := "", user_exists := true,
          persona_detected := "investor", action := "execute_chat",
          profession_name := some "investor", profession_prompt := some "P" }
        { users := ["u1"], conversations := [], professions := [] }
      = Except.ok
          ({ user_id := "u1", message := "hi", current_persona := "investor",
             conversation_history := [],
             response := "I apologize, but I encountered an error: boom",
             user_exists := true, persona_detected := "investor", action := "complete",
             profession_name := some "investor", profession_prompt := some "P" },
           { users := ["u1"], conversations := [], professions := [] }) := rfl

/-- C3 (amended): in the state every `/chat` run reaches `execute_chat`
with (`profession_prompt` unset) and with the prompt resolution
succeeding (result `(q, db₁)`): on generation failure the response is
still the non-empty apologetic string embedding the failure reason, but
NO conversation turn is appended — `db₁.conversations` is exactly the
inbound conversations, so the user turn is lost (only the
instruction-profile write of the resolution step, performed before the
`try`, may have changed the store); on success the inbound user turn
and then the outbound assistant turn are appended in that order. -/
theorem C3_failure_drops_turns (synth : String → LLMOut)
    (state : ChatState) (db : DB) (q : String) (db₁ : DB)
    (h0 : state.profession_prompt = none)
    (hq : get_or_create_profession_prompt synth db state.user_id
            (orOptStr state.profession_name (orStr state.current_persona "general_expert"))
          = Except.ok (q, db₁)) :
    (∀ e, ∃ state',
        execute_chat synth (fun _ => LLMOut.exn e) state db = Except.ok (state', db₁)
        ∧ state'.response = "I apologize, but I encountered an error: " ++ e
        ∧ state'.response ≠ ""
        ∧ db₁.conversations = db.conversations)
    ∧ (∀ a, ∃ state',
        execute_chat synth (fun _ => LLMOut.ok a) state db
          = Except.ok (state',
              { db₁ with conversations := db₁.conversations
                  ++ [{ user_id := state.user_id,
                        persona_name := orOptStr state.profession_name
                          (orStr state.current_persona "general_expert"),
                        role := "user", message := state.message },
                      { user_id := state.user_id,
                        persona_name := orOptStr state.profession_name
                          (orStr state.current_persona "general_expert"),
                        role := "assistant", message := a }] })
        ∧ state'.response = a) := by
  obtain ⟨-, hc1, -⟩ := get_or_create_db_spec synth db state.user_id
    (orOptStr state.profession_name (orStr state.current_persona "general_expert")) q db₁ hq
  constructor
  · intro e
    have he : execute_chat synth (fun _ => LLMOut.exn e) state db
        = Except.ok ({ state with
                        profession_prompt := some q,
                        response := "I apologize, but I encountered an error: " ++ e,
                        action := "complete" }, db₁) := by
      simp [execute_chat, h0, hq]
    exact ⟨_, he, rfl, apology_ne_empty e, hc1⟩
  · intro a
    have ha : execute_chat synth (fun _ => LLMOut.ok a) state db
        = Except.ok ({ state with
                        profession_prompt := some q,
                        response := a,
                        action := "complete" },
          { db₁ with conversations := db₁.conversations
              ++ [{ user_id := state.user_id,
                    persona_name := orOptStr state.profession_name
                      (orStr state.current_persona "general_expert"),
                    role := "user", message := state.message },
                  { user_id := state.user_id,
                    persona_name := orOptStr state.profession_name
                      (orStr state.current_persona "general_expert"),
                    role := "assistant", message := a }] }) := by
      simp [execute_chat, h0, hq, DB.save_message, List.append_assoc]
    exact ⟨_, ha, rfl⟩

/-- C3 witness: the failure half of the amended theorem at the state a
real run reaches `execute_chat` with — `profession_prompt` unset, label
"investor", fresh store — so the resolution step saves the new profile
row "P" before the `try`, and the generation failure "boom" then loses
the user turn: the conversations table stays empty. -/
theorem C3_failure_drops_turns_witness :
    ∃ state',
      execute_chat (fun _ => LLMOut.ok "P") (fun _ => LLMOut.exn "boom")
          { user_id := "u1", message := "hi", current_persona := "investor",
            conversation_history := [], response := "", user_exists := true,
            persona_detected := "investor", action := "execute_chat",
            profession_name := some "investor", profession_prompt := none }
          { users := ["u1"], conversations := [], professions := [] }
        = Except.ok (state',
            { users := ["u1"], conversations := [],
              professions := [{ user_id := "u1", profession_name := "investor",
                                prompt := "P" }] })
      ∧ state'.response = "I apologize, but I encountered an error: " ++ "boom"
      ∧ state'.response ≠ ""
      ∧ ([] : List ConvRow) = [] :=
  (C3_failure_drops_turns (fun _ => LLMOut.ok "P")
    { user_id := "u1", message := "hi", current_persona := "investor",
      conversation_history := [], response := "", user_exists := true,
      persona_detected := "investor", action := "execute_chat",
      profession_name := some "investor", profession_prompt := none }
    { users := ["u1"], conversations := [], professions := [] }
    "P"
    { users := ["u1"], conversations := [],
      professions := [{ user_id := "u1", profession_name := "investor", prompt := "P" }] }
    rfl rfl).1 "boom"

/-! ### C6 — bounded context assembly -/

/-- C6: the assembled context is the instruction text first, then the
window of prior turns, then the new message last; the window is a
suffix of the history (oldest dropped first) and never exceeds 10
entries, regardless of the thread length. -/
theorem C6_bounded_context (profession_prompt message : String)
    (conversation_history : List Turn) :
    build_context profession_prompt conversation_history message
        = LMsg.system profession_prompt
            :: ((lastN 10 conversation_history).filterMap roleToMsg ++ [LMsg.human message])
      ∧ ((lastN 10 conversation_history).filterMap roleToMsg).length ≤ 10
      ∧ List.IsSuffix (lastN 10 conversation_history) conversation_history := by
  refine ⟨?_, ?_, ?_⟩
  · simp [build_context]
  · calc ((lastN 10 conversation_history).filterMap roleToMsg).length
        ≤ (lastN 10 conversation_history).length := List.length_filterMap_le _ _
      _ ≤ 10 := by
          unfold lastN
          rw [List.length_drop]
          omega
  · unfold lastN
    exact List.drop_suffix _ _

/-! ### C8 — identity autocreation and idempotence -/

/-- C8: when the identity is absent, the first pipeline run creates
exactly one identity record for it; a second run with the same key
neither errors (validation is total and takes the user-exists branch)
nor changes the users table again. -/
theorem C8_identity_autocreate (state state₂ : ChatState) (db : DB)
    (h : state.user_id ∉ db.users) (h₂ : state₂.user_id = state.user_id) :
    (validate_user state db).2.users = db.users ++ [state.user_id]
      ∧ (validate_user state db).2.users.count state.user_id = 1
      ∧ (validate_user state₂ (validate_user state db).2).2 = (validate_user state db).2 := by
  have h1 : (validate_user state db).2.users = db.users ++ [state.user_id] := by
    simp [validate_user, DB.user_exists, DB.create_user, h]
  refine ⟨h1, ?_, ?_⟩
  · rw [h1, List.count_append, List.count_eq_zero.mpr h]
    simp
  · simp [validate_user, DB.user_exists, DB.create_user, h, h₂]

/-- C8 witness: creating "u1" against an empty users table, then
validating again with the same key. -/
theorem C8_identity_autocreate_witness :
    (validate_user
        { user_id := "u1", message := "hi", current_persona := "general_expert",
          conversation_history := [], response := "", user_exists := false,
          persona_detected := "", action := "validate_user",
          profession_name := none, profession_prompt := none }
        { users := [], conversations := [], professions := [] }).2.users
      = [] ++ ["u1"]
    ∧ (validate_user
        { user_id := "u1", message := "hi", current_persona := "general_expert",
          conversation_history := [], response := "", user_exists := false,
          persona_detected := "", action := "validate_user",
          profession_name := none, profession_prompt := none }
        { users := [], conversations := [], professions := [] }).2.users.count "u1" = 1
    ∧ (validate_user
        { user_id := "u1", message := "hi", current_persona := "general_expert",
          conversation_history := [], response := "", user_exists := false,
          persona_detected := "", action := "validate_user",
          profession_name := none, profession_prompt := none }
        ((validate_user
          { user_id := "u1", message := "hi", current_persona := "general_expert",
            conversation_history := [], response := "", user_exists := false,
            persona_detected := "", action := "validate_user",
            profession_name := none, profession_prompt := none }
          { users := [], conversations := [], professions := [] }).2)).2
      = (validate_user
          { user_id := "u1", message := "hi", current_persona := "general_expert",
            conversation_history := [], response := "", user_exists := false,
            persona_detected := "", action := "validate_user",
            profession_name := none, profession_prompt := none }
          { users := [], conversations := [], professions := [] }).2 :=
  C8_identity_autocreate _ _ _ (by decide) rfl

/-! ### C10 — deletion of an unknown identity -/

/-- C10: deleting an unknown identity reports success: the DELETE
matches zero rows, leaves the database unchanged and returns `True`,
and the endpoint answers with the success message — while the history
and persona query endpoints reject the same unknown key with a 404
not-found error. -/
theorem C10_delete_unknown_ok (db : DB) (u : String)
    (hu : u ∉ db.users)
    (hc : ∀ r ∈ db.conversations, r.user_id ≠ u)
    (hp : ∀ r ∈ db.professions, r.user_id ≠ u) :
    DB.delete_user_data db u = (true, db)
      ∧ delete_user db u = Except.ok ("User " ++ u ++ " deleted successfully", db)
      ∧ get_chat_history db u = Except.error (ApiError.http 404 "User not found")
      ∧ get_user_personas_route db u = Except.error (ApiError.http 404 "User not found") := by
  have h1 : db.users.filter (fun x => x != u) = db.users := by
    rw [List.filter_eq_self]
    intro a ha
    rw [bne_iff_ne]
    intro he
    exact hu (he ▸ ha)
  have h2 : db.conversations.filter (fun r => r.user_id != u) = db.conversations := by
    rw [List.filter_eq_self]
    intro r hr
    rw [bne_iff_ne]
    exact hc r hr
  have h3 : db.professions.filter (fun r => r.user_id != u) = db.professions := by
    rw [List.filter_eq_self]
    intro r hr
    rw [bne_iff_ne]
    exact hp r hr
  have hdel : DB.delete_user_data db u = (true, db) := by
    unfold DB.delete_user_data
    rw [h1, h2, h3]
  refine ⟨hdel, ?_, ?_, ?_⟩
  · unfold delete_user
    rw [hdel]
    rfl
  · simp [get_chat_history, DB.user_exists, hu]
  · simp [get_user_personas_route, DB.user_exists, hu]

/-- C10 witness: deleting the unknown key "u1" from a store that only
knows "alice" succeeds and changes nothing, while the query endpoints
404. -/
theorem C10_delete_unknown_ok_witness :
    DB.delete_user_data
        { users := ["alice"], conversations := [], professions := [] } "u1"
      = (true, { users := ["alice"], conversations := [], professions := [] })
    ∧ delete_user { users := ["alice"], conversations := [], professions := [] } "u1"
      = Except.ok ("User " ++ "u1" ++ " deleted successfully",
          { users := ["alice"], conversations := [], professions := [] })
    ∧ get_chat_history { users := ["alice"], conversations := [], professions := [] } "u1"
      = Except.error (ApiError.http 404 "User not found")
    ∧ get_user_personas_route { users := ["alice"], conversations := [], professions := [] } "u1"
      = Except.error (ApiError.http 404 "User not found") :=
  C10_delete_unknown_ok _ _ (by decide)
    (by intro r hr; cases hr) (by intro r hr; cases hr)

/-! ### C9 — one resolved label throughout the Executor -/

theorem init_chat_user_id (state : ChatState) : (init_chat state).user_id = state.user_id := by
  simp only [init_chat]
  split <;> rfl

theorem validate_user_db (state : ChatState) (db : DB) :
    (validate_user state db).1.user_id = state.user_id
    ∧ (validate_user state db).2.conversations = db.conversations
    ∧ (validate_user state db).2.professions = db.professions := by
  simp only [validate_user, DB.create_user]
  split
  · exact ⟨rfl, rfl, rfl⟩
  · split
    · exact ⟨rfl, rfl, rfl⟩
    · exact ⟨rfl, rfl, rfl⟩

theorem mem_append_pair {α : Type} (x : List α) (a b r : α)
    (h : r ∈ (x ++ [a]) ++ [b]) : r ∈ x ∨ r = a ∨ r = b := by
  rcases List.mem_append.mp h with h1 | h1
  · rcases List.mem_append.mp h1 with h2 | h2
    · exact Or.inl h2
    · exact Or.inr (Or.inl (List.mem_singleton.mp h2))
  · exact Or.inr (Or.inr (List.mem_singleton.mp h1))

/-- A successful `handle_persona` run stores one resolved label in all
three state fields, leaves identity/message/prompt untouched, never
produces an empty label, and loads the history under exactly that
label. -/
theorem handle_persona_ok_fields (classify : String → String → ClassifierOut)
    (state : ChatState) (db : DB) (state' : ChatState)
    (h : handle_persona classify state db = Except.ok state') :
    state'.persona_detected = state'.current_persona
    ∧ state'.profession_name = some state'.current_persona
    ∧ state'.current_persona ≠ ""
    ∧ state'.user_id = state.user_id
    ∧ state'.message = state.message
    ∧ state'.profession_prompt = state.profession_prompt
    ∧ state'.conversation_history
        = (if DB.persona_exists_for_user db state.user_id state'.current_persona = true then
            DB.get_persona_history db state.user_id state'.current_persona
          else []) := by
  simp only [handle_persona] at h
  cases hdet : detect_profession_from_message
      (classify state.message (orStr state.current_persona "general_expert"))
      (orStr state.current_persona "general_expert") with
  | error e => simp only [hdet] at h; simp at h
  | ok detection =>
      simp only [hdet] at h
      simp only [Except.ok.injEq] at h
      subst h
      refine ⟨rfl, rfl, ?_, rfl, rfl, rfl, rfl⟩
      exact orStr_ne_of_ne _ _ (orStr_ne_of_ne _ _ general_expert_ne_empty)

/-- A successful `execute_chat` run keeps the persona label and
identity of its input state, never touches the users table, and every
row it appends to conversations or professions is keyed by the state's
resolved label. -/
theorem execute_chat_keys (synth : String → LLMOut) (gen : List LMsg → LLMOut)
    (state : ChatState) (db : DB) (L : String)
    (hL : state.profession_name = some L) (hL2 : L ≠ "")
    (state₂ : ChatState) (db₂ : DB)
    (h : execute_chat synth gen state db = Except.ok (state₂, db₂)) :
    state₂.current_persona = state.current_persona
    ∧ state₂.user_id = state.user_id
    ∧ db₂.users = db.users
    ∧ (∀ r ∈ db₂.conversations, r ∈ db.conversations
        ∨ (r.user_id = state.user_id ∧ r.persona_name = L))
    ∧ (∀ r ∈ db₂.professions, r ∈ db.professions
        ∨ (r.user_id = state.user_id ∧ r.profession_name = L)) := by
  have hlab : orOptStr state.profession_name (orStr state.current_persona "general_expert")
      = L := by
    rw [hL]
    simp [orOptStr, orStr, hL2]
  simp only [execute_chat, hlab] at h
  cases hpp : state.profession_prompt with
  | some pp =>
      simp only [hpp] at h
      by_cases hpe : pp = ""
      · rw [if_pos hpe] at h
        cases hgc : get_or_create_profession_prompt synth db state.user_id L with
        | error e => simp only [hgc] at h; simp at h
        | ok qd =>
            obtain ⟨q, db₁⟩ := qd
            obtain ⟨hu1, hc1, hp1⟩ := get_or_create_db_spec synth db state.user_id L q db₁ hgc
            simp only [hgc] at h
            cases hg : gen (build_context q state.conversation_history state.message) with
            | ok a =>
                simp only [hg, DB.save_message] at h
                simp only [Except.ok.injEq, Prod.mk.injEq] at h
                obtain ⟨hs, hd⟩ := h
                subst hs
                subst hd
                refine ⟨rfl, rfl, hu1, ?_, fun r hr => hp1 r hr⟩
                intro r hr
                rcases mem_append_pair _ _ _ _ hr with h1 | h1 | h1
                · exact Or.inl (hc1 ▸ h1)
                · subst h1; exact Or.inr ⟨rfl, rfl⟩
                · subst h1; exact Or.inr ⟨rfl, rfl⟩
            | exn e =>
                simp only [hg] at h
                simp only [Except.ok.injEq, Prod.mk.injEq] at h
                obtain ⟨hs, hd⟩ := h
                subst hs
                subst hd
                exact ⟨rfl, rfl, hu1, fun r hr => Or.inl (hc1 ▸ hr),
                  fun r hr => hp1 r hr⟩
      · rw [if_neg hpe] at h
        cases hg : gen (build_context pp state.conversation_history state.message) with
        | ok a =>
            simp only [hg, DB.save_message] at h
            simp only [Except.ok.injEq, Prod.mk.injEq] at h
            obtain ⟨hs, hd⟩ := h
            subst hs
            subst hd
            refine ⟨rfl, rfl, rfl, ?_, fun r hr => Or.inl hr⟩
            intro r hr
            rcases mem_append_pair _ _ _ _ hr with h1 | h1 | h1
            · exact Or.inl h1
            · subst h1; exact Or.inr ⟨rfl, rfl⟩
            · subst h1; exact Or.inr ⟨rfl, rfl⟩
        | exn e =>
            simp only [hg] at h
            simp only [Except.ok.injEq, Prod.mk.injEq] at h
            obtain ⟨hs, hd⟩ := h
            subst hs
            subst hd
            exact ⟨rfl, rfl, rfl, fun r hr => Or.inl hr, fun r hr => Or.inl hr⟩
  | none =>
      simp only [hpp] at h
      cases hgc : get_or_create_profession_prompt synth db state.user_id L with
      | error e => simp only [hgc] at h; simp at h
      | ok qd =>
          obtain ⟨q, db₁⟩ := qd
          obtain ⟨hu1, hc1, hp1⟩ := get_or_create_db_spec synth db state.user_id L q db₁ hgc
          simp only [hgc] at h
          cases hg : gen (build_context q state.conversation_history state.message) with
          | ok a =>
              simp only [hg, DB.save_message] at h
              simp only [Except.ok.injEq, Prod.mk.injEq] at h
              obtain ⟨hs, hd⟩ := h
              subst hs
              subst hd
              refine ⟨rfl, rfl, hu1, ?_, fun r hr => hp1 r hr⟩
              intro r hr
              rcases mem_append_pair _ _ _ _ hr with h1 | h1 | h1
              · exact Or.inl (hc1 ▸ h1)
              · subst h1; exact Or.inr ⟨rfl, rfl⟩
              · subst h1; exact Or.inr ⟨rfl, rfl⟩
          | exn e =>
              simp only [hg] at h
              simp only [Except.ok.injEq, Prod.mk.injEq] at h
              obtain ⟨hs, hd⟩ := h
              subst hs
              subst hd
              exact ⟨rfl, rfl, hu1, fun r hr => Or.inl (hc1 ▸ hr),
                fun r hr => hp1 r hr⟩

/-- C9: on any successful `/chat` request there is one resolved label:
the Router state carries it in `persona_detected`, `current_persona`
and `profession_name` simultaneously and loads the history under it;
every conversation row and profession row added during the request is
keyed by (request identity, that label); no later stage changes it, and
it is exactly the non-empty `persona_name` returned to the caller. -/
theorem C9_single_resolved_label (classify : String → String → ClassifierOut)
    (synth : String → LLMOut) (gen : List LMsg → LLMOut)
    (request : ChatRequest) (db : DB) (res : ChatResponse) (db' : DB)
    (h : chat classify synth gen request db = Except.ok (res, db')) :
    res.user_id = request.user_id
    ∧ res.persona_name ≠ ""
    ∧ (∃ routed,
        handle_persona classify
            (validate_user (init_chat (initial_state request)) db).1
            (validate_user (init_chat (initial_state request)) db).2
          = Except.ok routed
        ∧ routed.persona_detected = res.persona_name
        ∧ routed.current_persona = res.persona_name
        ∧ routed.profession_name = some res.persona_name
        ∧ routed.conversation_history
            = (if DB.persona_exists_for_user
                  (validate_user (init_chat (initial_state request)) db).2
                  request.user_id res.persona_name = true then
                DB.get_persona_history
                  (validate_user (init_chat (initial_state request)) db).2
                  request.user_id res.persona_name
              else []))
    ∧ (∀ r ∈ db'.conversations, r ∈ db.conversations
        ∨ (r.user_id = request.user_id ∧ r.persona_name = res.persona_name))
    ∧ (∀ r ∈ db'.professions, r ∈ db.professions
        ∨ (r.user_id = request.user_id ∧ r.profession_name = res.persona_name)) := by
  simp only [chat, run_graph] at h
  cases hhp : handle_persona classify
      (validate_user (init_chat (initial_state request)) db).1
      (validate_user (init_chat (initial_state request)) db).2 with
  | error e => simp only [hhp] at h; simp at h
  | ok routed =>
      simp only [hhp] at h
      cases hex : execute_chat synth gen routed
          (validate_user (init_chat (initial_state request)) db).2 with
      | error e => simp only [hex] at h; simp at h
      | ok fd =>
          obtain ⟨final, dbf⟩ := fd
          simp only [hex] at h
          simp only [Except.ok.injEq, Prod.mk.injEq] at h
          obtain ⟨hres, hdb⟩ := h
          subst hdb
          subst hres
          obtain ⟨hpd, hpn, hne, huid, hmsg, hppr, hch⟩ :=
            handle_persona_ok_fields classify _ _ _ hhp
          obtain ⟨hcp, huid2, husers, hconv, hprof⟩ :=
            execute_chat_keys synth gen routed _ routed.current_persona hpn hne final dbf hex
          obtain ⟨hvu, hvc, hvp⟩ := validate_user_db (init_chat (initial_state request)) db
          have hsd1 : (validate_user (init_chat (initial_state request)) db).1.user_id
              = request.user_id := by
            rw [hvu, init_chat_user_id]
            rfl
          refine ⟨?_, ?_, ⟨routed, rfl, ?_, ?_, ?_, ?_⟩, ?_, ?_⟩
          · show final.user_id = request.user_id
            rw [huid2, huid, hsd1]
          · show final.current_persona ≠ ""
            rw [hcp]
            exact hne
          · show routed.persona_detected = final.current_persona
            rw [hpd, hcp]
          · exact hcp.symm
          · show routed.profession_name = some final.current_persona
            rw [hcp]
            exact hpn
          · show routed.conversation_history = _
            rw [hch, hsd1]
            simp only [hcp]
          · intro r hr
            rcases hconv r hr with h1 | h1
            · exact Or.inl (hvc ▸ h1)
            · refine Or.inr ⟨?_, ?_⟩
              · rw [h1.1, huid, hsd1]
              · show r.persona_name = final.current_persona
                rw [h1.2, hcp]
          · intro r hr
            rcases hprof r hr with h1 | h1
            · exact Or.inl (hvp ▸ h1)
            · refine Or.inr ⟨?_, ?_⟩
              · rw [h1.1, huid, hsd1]
              · show r.profession_name = final.current_persona
                rw [h1.2, hcp]

/-- C9 witness: a concrete successful run ("u1" asks while the
classifier resolves "investor", synthesis returns "P", generation
returns "R") satisfies every clause of the single-label theorem. -/
theorem C9_single_resolved_label_witness :
    ("u1" : String) = "u1"
    ∧ ("investor" : String) ≠ ""
    ∧ (∃ routed,
        handle_persona (fun _ _ => ClassifierOut.parsed true (some "investor"))
            (validate_user (init_chat (initial_state
                { user_id := "u1", message := "hi", persona_name := "general_expert" }))
              { users := [], conversations := [], professions := [] }).1
            (validate_user (init_chat (initial_state
                { user_id := "u1", message := "hi", persona_name := "general_expert" }))
              { users := [], conversations := [], professions := [] }).2
          = Except.ok routed
        ∧ routed.persona_detected = "investor"
        ∧ routed.current_persona = "investor"
        ∧ routed.profession_name = some "investor"
        ∧ routed.conversation_history = ([] : List Turn))
    ∧ (∀ r ∈ [({ user_id := "u1", persona_name := "investor",
                  role := "user", message := "hi" } : ConvRow),
               { user_id := "u1", persona_name := "investor",
                  role := "assistant", message := "R" }],
        r ∈ ([] : List ConvRow) ∨ (r.user_id = "u1" ∧ r.persona_name = "investor"))
    ∧ (∀ r ∈ [({ user_id := "u1", profession_name := "investor", prompt := "P" } : ProfRow)],
        r ∈ ([] : List ProfRow) ∨ (r.user_id = "u1" ∧ r.profession_name = "investor")) :=
  C9_single_resolved_label
    (fun _ _ => ClassifierOut.parsed true (some "investor"))
    (fun _ => LLMOut.ok "P") (fun _ => LLMOut.ok "R")
    { user_id := "u1", message := "hi", persona_name := "general_expert" }
    { users := [], conversations := [], professions := [] }
    { response := "R", persona_name := "investor", user_id := "u1" }
    { users := ["u1"],
      conversations := [{ user_id := "u1", persona_name := "investor",
                          role := "user", message := "hi" },
                        { user_id := "u1", persona_name := "investor",
                          role := "assistant", message := "R" }],
      professions := [{ user_id := "u1", profession_name := "investor", prompt := "P" }] }
    rfl

end PersonaAgent
